import Mathlib

/-!
Verification of the `DiscordOAuth` login middleware of `backend/oauth.py`
(rt-backend).  The Python class is shallowly embedded: every method becomes a
Lean function over explicit state, provider round-trips are resolved through a
`ProviderEnv` oracle and recorded in a call trace, and uncaught Python
exceptions are modelled as an explicit `crash` outcome.  The external `reprypt`
cipher and the `ujson` serialization are modelled from the spec, as noted in
their doc comments.
-/

set_option autoImplicit false
set_option linter.unusedVariables false

universe u

/-- A resolved Discord user: the `id`/`name` projection the middleware uses. -/
structure User where
  id : Nat
  name : String
deriving DecidableEq, Repr

/-- The bot client: only `fetch_user` (lookup of a user by id) is consumed. -/
structure TypedBot where
  fetch_user : Nat → User

/-- The parts of a Sanic `Request` the middleware reads. -/
structure Req where
  scheme : String
  host : String
  path : String
  ip : String
  cookies : List (String × String)
  args : List (String × String)

/-- The parts of a Sanic response the middleware touches: its cookie jar.
Setting a cookie conses the pair; lookup takes the first binding. -/
structure HttpResponse where
  cookies : List (String × String)
deriving DecidableEq, Repr

/-- Sanic `RequestParameters.get(name, default)`: first value if present. -/
def argsGet (args : List (String × String)) (k d : String) : String :=
  (args.lookup k).getD d

/-- The two `reprypt` encodings used by the code: the default one (session
cookies) and `convert_hex` (state tokens embedded in URLs). -/
inductive Conv
  | dflt
  | hex
deriving DecidableEq

/-- Tag character distinguishing the two encodings in the cipher model. -/
def convTag : Conv → Char
  | .dflt => 'd'
  | .hex => 'h'

/-- Modelled from the spec: the external `reprypt.encrypt` (§4.1 Cipher), a
keyed symmetric encryption of a string.  The model makes the ciphertext a
function of the converter, the key and the plaintext in a way `reprypt.decrypt`
inverts exactly when called with the same key and converter. -/
def reprypt.encrypt (text key : String) (conv : Conv) : String :=
  ⟨convTag conv :: (key.data ++ '|' :: text.data)⟩

/-- Modelled from the spec: the external `reprypt.decrypt` (§4.1 Cipher).
Returns `none` where the Python library raises `DecryptError` (malformed or
tampered input, wrong key or wrong converter). -/
def reprypt.decrypt (cipher key : String) (conv : Conv) : Option String :=
  match cipher.data with
  | [] => none
  | t :: rest =>
    if t = convTag conv ∧ rest.take key.data.length = key.data ∧
        (rest.drop key.data.length).head? = some '|' then
      some ⟨(rest.drop key.data.length).tail⟩
    else
      none

/-- The character rendering a single decimal digit. -/
def natToDigitChar (d : Nat) : Char :=
  Char.ofNat (d + 48)

/-- The decimal value of a digit character. -/
def digitVal (c : Char) : Nat :=
  c.toNat - 48

/-- Whether a character is an ASCII decimal digit. -/
def isDigitCh (c : Char) : Bool :=
  48 ≤ c.toNat && c.toNat ≤ 57

/-- Little-endian base-10 digits, by structural recursion on a fuel bound so
that the kernel can evaluate it on concrete numbers. -/
def natDigitsAux : Nat → Nat → List Nat
  | 0, _ => []
  | _ + 1, 0 => []
  | fuel + 1, m + 1 => ((m + 1) % 10) :: natDigitsAux fuel ((m + 1) / 10)

/-- Little-endian base-10 digits of a natural number. -/
def natDigits (n : Nat) : List Nat :=
  natDigitsAux n n

/-- Decimal rendering of a natural number (most significant digit first). -/
def natToDigitString (n : Nat) : String :=
  if n = 0 then "0" else ⟨((natDigits n).map natToDigitChar).reverse⟩

/-- Value of a big-endian list of digit characters. -/
def parseDigits (l : List Char) : Nat :=
  Nat.ofDigits 10 ((l.map digitVal).reverse)

/-- Modelled from the spec: `ujson.dumps` applied to the session-cookie
mapping `\x7b"id": ..., "name": ...\x7d` written by the middleware (§6 Cookie
format).  The keys are the two keys the writer uses, in the order written. -/
def dumps_cookie (uid : Nat) (name : String) : String :=
  ⟨'\x7b' :: '"' :: 'i' :: 'd' :: '"' :: ':' ::
    ((natToDigitString uid).data ++
      ',' :: '"' :: 'n' :: 'a' :: 'm' :: 'e' :: '"' :: ':' :: '"' ::
        (name.data ++ ['"', '\x7d']))⟩

/-- Modelled from the spec: `int(ujson.loads(s)["id"])`, the projection the
cookie reader applies to the decrypted payload.  Returns `none` where the
Python expression raises (payload not shaped like the cookie JSON). -/
def loads_cookie_id (s : String) : Option Nat :=
  match s.data with
  | '\x7b' :: '"' :: 'i' :: 'd' :: '"' :: ':' :: rest =>
    let ds := rest.takeWhile isDigitCh
    if ds = [] then none else some (parseDigits ds)
  | _ => none

/-- The provider call a middleware run may issue, for the effect trace. -/
inductive PCall
  | authorize
  | token
  | userinfo
deriving DecidableEq, Repr

/-- Uncaught Python exceptions the middleware can hit. -/
inductive PyError
  | typeError
  | valueError
  | attributeError
deriving DecidableEq, Repr

/-- What a run of the wrapped route produces. -/
inductive Outcome
  | ok (resp : HttpResponse)
  | redirect (url : String)
  | httpError (status : Nat) (providerStatus : Option Nat)
  | crash (e : PyError)
deriving DecidableEq, Repr

/-- Full observable record of a single `new_route` run: the outcome, whether
and with which `ctx.user` the wrapped handler was invoked, whether the state
checker was applied, and the provider calls issued, in order. -/
structure RouteRun where
  outcome : Outcome
  userArg : Option (Option User)
  checked : Bool
  calls : List PCall
deriving DecidableEq, Repr

/-- The parsed token-endpoint response body consumed by the middleware. -/
structure TokenData where
  access_token : String
deriving DecidableEq, Repr

/-- Oracle for the provider's responses during one run: the `Location` the
authorize endpoint redirects to, and results of the token exchange and the
user-info fetch (`Except` errors are `aiohttp` HTTP error statuses). -/
structure ProviderEnv where
  authorize_location : String
  token_response : Except Nat TokenData
  user_response : Except Nat User

/-- The `DiscordOAuth` instance state the middleware reads. -/
structure DiscordOAuth where
  client_id : String
  client_secret : String
  secret_key : String
  redirects : List (String × Option String)
  bot : Option TypedBot

/-- `self.redirects.get(url)`: `None` both when absent and when reset. -/
def redirectsGet (rs : List (String × Option String)) (k : String) :
    Option String :=
  (rs.lookup k).bind id

/-- `get_redirect_oauth`: read the cached OAuth URL for a redirect URL. -/
def DiscordOAuth.get_redirect_oauth (self : DiscordOAuth) (url : String) :
    Option String :=
  redirectsGet self.redirects url

/-- `reset_oauth`: store `None` under the given redirect URL. -/
def DiscordOAuth.reset_oauth (self : DiscordOAuth) (url : String) :
    DiscordOAuth :=
  { self with redirects := (url, none) :: self.redirects }

/-- `reset_all_oauth`: `reset_oauth` every key currently in the mapping. -/
def DiscordOAuth.reset_all_oauth (self : DiscordOAuth) : DiscordOAuth :=
  self.redirects.foldl (fun s p => s.reset_oauth p.1) self

/-- Python `str.find` for one character: index of first occurrence, else -1. -/
def pyFindAux (c : Char) : List Char → Int
  | [] => -1
  | a :: t =>
    if a = c then 0
    else if pyFindAux c t < 0 then -1 else pyFindAux c t + 1

/-- `url.find("?")` over the character list of the URL. -/
def pyFindQ (l : List Char) : Int :=
  pyFindAux '?' l

/-- Python slice-index semantics: clamp an `Int` index into `[0, n]`,
counting from the end when negative. -/
def pyClamp (n : Nat) (i : Int) : Nat :=
  if i < 0 then n - (-i).toNat else min i.toNat n

/-- `str.replace("/", "%2F")` on a character list. -/
def replaceSlash (l : List Char) : List Char :=
  l.flatMap (fun c => if c = '/' then ['%', '2', 'F'] else [c])

/-- Lines 90-91 of `get_url`: `url[:slash] + url[slash:].replace("/", "%2F")`
with `slash = url.find("?")`, under Python's find/slice semantics. -/
def encodeLocation (url : String) : String :=
  let slash := pyFindQ url.data
  let j := pyClamp url.data.length slash
  ⟨url.data.take j ++ replaceSlash (url.data.drop j)⟩

/-- The URL transformation claim C9 describes, written from the spec's words:
the portion up to the first `?` kept verbatim, every literal `/` from the
first `?` onward replaced by `%2F`. -/
def specEncodeLocation (url : String) : String :=
  ⟨url.data.takeWhile (fun c => c ≠ '?') ++
    replaceSlash (url.data.dropWhile (fun c => c ≠ '?'))⟩

/-- `f"&state={state}" if state else ""`: Python truthiness of the state. -/
def stateSuffix : Option String → String
  | some s => if s = "" then "" else "&state=" ++ s
  | none => ""

/-- `get_url`: serve the cached authorize URL when the cache holds one,
otherwise resolve it through the provider's authorize endpoint (recorded as a
`PCall.authorize` round-trip).  Returns the URL, the instance state after the
call, and the provider calls issued.  The method never assigns to
`self.redirects`, which the returned state makes explicit. -/
def DiscordOAuth.get_url (self : DiscordOAuth) (env : ProviderEnv)
    (redirect_url : String) (scope : List String) (state : Option String) :
    String × DiscordOAuth × List PCall :=
  match redirectsGet self.redirects redirect_url with
  | some url => (url ++ stateSuffix state, self, [])
  | none =>
    let url := encodeLocation env.authorize_location
    (url ++ stateSuffix state, self, [PCall.authorize])

/-- `make_base_url`: `f"{request.scheme}://{request.host}"`. -/
def DiscordOAuth.make_base_url (self : DiscordOAuth) (request : Req) : String :=
  request.scheme ++ "://" ++ request.host

/-- `make_url`: base URL followed by the path. -/
def DiscordOAuth.make_url (self : DiscordOAuth) (request : Req) (path : String) :
    String :=
  self.make_base_url request ++ path

/-- Default `state_generator`: encrypt `f"{request.host}{request.ip}"` with
the hex converter. -/
def DiscordOAuth.state_generator (self : DiscordOAuth) (request : Req) :
    String :=
  reprypt.encrypt (request.host ++ request.ip) self.secret_key Conv.hex

/-- Default `state_checker`: decrypt the state with the hex converter and
compare with `f"{request.host}{request.ip}"`; `DecryptError` yields `false`. -/
def DiscordOAuth.state_checker (self : DiscordOAuth) (request : Req)
    (state : String) : Bool :=
  match reprypt.decrypt state self.secret_key Conv.hex with
  | some m => request.host ++ request.ip == m
  | none => false

/-- `encrypt`: cipher the dumped cookie mapping with the default converter. -/
def DiscordOAuth.encrypt (self : DiscordOAuth) (uid : Nat) (name : String) :
    String :=
  reprypt.encrypt (dumps_cookie uid name) self.secret_key Conv.dflt

/-- `get_user_cookie`: decrypt the cookie, read its `"id"` field and fetch
the user; `DecryptError` is caught and yields `None`, other failures
(non-cookie payload, uninitialized bot) propagate as exceptions. -/
def DiscordOAuth.get_user_cookie (self : DiscordOAuth) (cookie : String) :
    Except PyError (Option User) :=
  match reprypt.decrypt cookie self.secret_key Conv.dflt with
  | none => .ok none
  | some s =>
    match loads_cookie_id s with
    | none => .error .valueError
    | some uid =>
      match self.bot with
      | none => .error .attributeError
      | some b => .ok (some (b.fetch_user uid))

/-- Python truthiness of `request.cookies.get("session", None)`: a string is
truthy when present and non-empty. -/
def sessionTruthy : Option String → Bool
  | some s => s ≠ ""
  | none => false

/-- `self.get_user_cookie(data) if data else None` inside the cookie/force
branch, with `data = request.cookies.get("session", None)`. -/
def DiscordOAuth.cookie_branch_user (self : DiscordOAuth) (request : Req) :
    Except PyError (Option User) :=
  let data := request.cookies.lookup "session"
  if sessionTruthy data then self.get_user_cookie (data.getD "")
  else .ok none

/-- The configuration `_wrap_route` closes over, after `require_login`
resolved the state-function arguments. -/
structure RouteConfig where
  force : Bool
  scope : List String
  state_generator : Option (Req → String)
  state_checker : Option (Req → String → Bool)

/-- The token-exchange part of the callback branch (lines 177-190 and the
cookie write of lines 203-209): exchange the code, fetch the user, run the
handler and write the `session` cookie; an HTTP error from either provider
call becomes a 400 `SanicException` carrying the provider's error. -/
def DiscordOAuth.exchange_phase (self : DiscordOAuth) (env : ProviderEnv)
    (func : Option User → HttpResponse) (checked : Bool) : RouteRun :=
  match env.token_response with
  | .error e => ⟨.httpError 400 (some e), none, checked, [PCall.token]⟩
  | .ok _ =>
    match env.user_response with
    | .error e =>
      ⟨.httpError 400 (some e), none, checked, [PCall.token, PCall.userinfo]⟩
    | .ok user =>
      let resp := func (some user)
      ⟨.ok { resp with
              cookies := ("session", self.encrypt user.id user.name)
                :: resp.cookies },
        some (some user), checked, [PCall.token, PCall.userinfo]⟩

/-- The wrapped route produced by `_wrap_route` (lines 159-211), as a function
of the instance, the provider oracle, the closed-over configuration, the
wrapped handler and the request.  Dispatch order follows the source: 503 when
the bot is not ready; cookie-present-or-force passthrough; callback phase when
query args are present (state check gated on `state_generator`, then token
exchange, user fetch, handler, cookie write); otherwise redirect to the
authorize URL. -/
def DiscordOAuth.new_route (self : DiscordOAuth) (env : ProviderEnv)
    (cfg : RouteConfig) (func : Option User → HttpResponse) (request : Req) :
    RouteRun :=
  match self.bot with
  | none => ⟨.httpError 503 none, none, false, []⟩
  | some _ =>
    let data := request.cookies.lookup "session"
    if sessionTruthy data || cfg.force then
      match self.cookie_branch_user request with
      | .error e => ⟨.crash e, none, false, []⟩
      | .ok u => ⟨.ok (func u), some u, false, []⟩
    else if request.args ≠ [] then
      match cfg.state_generator with
      | some _ =>
        match cfg.state_checker with
        | none => ⟨.crash .typeError, none, false, []⟩
        | some chk =>
          if chk request (argsGet request.args "state" "") then
            self.exchange_phase env func true
          else ⟨.httpError 403 none, none, true, []⟩
      | none => self.exchange_phase env func false
    else
      let redirect_url := self.make_url request request.path
      let state := cfg.state_generator.map (fun g => g request)
      let r := self.get_url env redirect_url cfg.scope state
      ⟨.redirect r.1, none, false, r.2.2⟩

/-- The sentinel-typed state-function arguments of `require_login`:
a caller-supplied function, the literal `"default"`, or `None`. -/
inductive StateFnArg (α : Type)
  | dflt
  | custom (f : α)
  | disabled

/-- `require_login` (lines 214-229): resolve the state-function arguments and
return the configuration handed to `_wrap_route`.  The source compares each
argument with the string `"default"` and replaces every other value —
including a caller-supplied function — with `None`. -/
def DiscordOAuth.require_login (self : DiscordOAuth) (force : Bool)
    (scope : List String) (sg : StateFnArg (Req → String))
    (sc : StateFnArg (Req → String → Bool)) : RouteConfig :=
  { force := force
    scope := scope
    state_generator :=
      match sg with
      | .dflt => some self.state_generator
      | _ => none
    state_checker :=
      match sc with
      | .dflt => some self.state_checker
      | _ => none }

/-! Concrete fixtures used by the witness and counterexample theorems. -/

/-- A bot whose user lookup is the identity on the id. -/
def botA : TypedBot :=
  ⟨fun n => ⟨n, "member"⟩⟩

/-- An instance whose bot finished initializing. -/
def oauthReady : DiscordOAuth :=
  { client_id := "cid", client_secret := "cs", secret_key := "k",
    redirects := [], bot := some botA }

/-- An instance whose bot has not finished initializing. -/
def oauthDown : DiscordOAuth :=
  { client_id := "cid", client_secret := "cs", secret_key := "k",
    redirects := [], bot := none }

/-- A provider oracle where every call succeeds. -/
def envOk : ProviderEnv :=
  { authorize_location :=
      "https://discord.com/oauth2/authorize?redirect_uri=https://a/cb&x=1",
    token_response := .ok ⟨"tok"⟩,
    user_response := .ok ⟨5, "alice"⟩ }

/-- A provider oracle where the token exchange fails with HTTP 401. -/
def envTokenFail : ProviderEnv :=
  { envOk with token_response := .error 401 }

/-- A provider oracle whose authorize `Location` carries no query string. -/
def envNoQuery : ProviderEnv :=
  { envOk with authorize_location := "https://a/b/" }

/-- A handler returning a fixed response with one pre-existing cookie. -/
def handler0 : Option User → HttpResponse :=
  fun _ => ⟨[("theme", "dark")]⟩

/-- The default route configuration (`require_login()` with no arguments). -/
def cfgDefault : RouteConfig :=
  oauthReady.require_login false ["identify"] .dflt .dflt

/-- A configuration with the generator disabled but the checker default,
from `require_login(state_generator=None)`. -/
def cfgNoGen : RouteConfig :=
  oauthReady.require_login false ["identify"] .disabled .dflt

/-- A configuration with both state functions disabled. -/
def cfgDisabled : RouteConfig :=
  oauthReady.require_login false ["identify"] .disabled .disabled

/-- A request with no session cookie and no query parameters. -/
def reqPlain : Req :=
  { scheme := "https", host := "h", path := "/p", ip := "1.2.3.4",
    cookies := [], args := [] }

/-- A callback-phase request whose `state` the default checker rejects. -/
def reqCBBad : Req :=
  { reqPlain with args := [("code", "ABC"), ("state", "zzz")] }

/-- A callback-phase request carrying the state the default generator issued
for the same host and ip. -/
def reqCBGood : Req :=
  { reqPlain with
    args := [("code", "ABC"), ("state", oauthReady.state_generator reqPlain)] }

/-- A request presenting the session cookie the middleware writes for user 5. -/
def reqCookie : Req :=
  { reqPlain with cookies := [("session", oauthReady.encrypt 5 "alice")] }

/-- A request presenting a session cookie that fails to decrypt. -/
def reqCorrupt : Req :=
  { reqPlain with cookies := [("session", "garbage")] }

/-- A request from a different origin (host and ip differ from `reqPlain`). -/
def reqOther : Req :=
  { reqPlain with host := "h2", ip := "5.6.7.8" }

/-- First `get_url` call on a fresh instance. -/
def c1_first : String × DiscordOAuth × List PCall :=
  oauthDown.get_url envOk "https://app/cb" ["identify"] none

/-- Second `get_url` call, on the instance state the first call returned. -/
def c1_second : String × DiscordOAuth × List PCall :=
  c1_first.2.1.get_url envOk "https://app/cb" ["identify"] none

/-! Helper lemmas. -/

theorem list_take_append {α : Type u} (l1 l2 : List α) :
    (l1 ++ l2).take l1.length = l1 := by
  induction l1 with
  | nil => rfl
  | cons a t ih => simp [ih]

theorem list_drop_append {α : Type u} (l1 l2 : List α) :
    (l1 ++ l2).drop l1.length = l2 := by
  induction l1 with
  | nil => rfl
  | cons a t ih => simp [ih]

/-- Decrypting with the key and converter used to encrypt recovers the text. -/
theorem reprypt.decrypt_encrypt (text key : String) (conv : Conv) :
    reprypt.decrypt (reprypt.encrypt text key conv) key conv = some text := by
  show reprypt.decrypt ⟨convTag conv :: (key.data ++ '|' :: text.data)⟩ key conv
      = some text
  unfold reprypt.decrypt
  simp only [list_take_append, list_drop_append]
  simp

theorem takeWhile_append_stop {α : Type u} (p : α → Bool) (l1 : List α) (b : α)
    (l2 : List α) (h1 : ∀ a ∈ l1, p a = true) (h2 : p b = false) :
    (l1 ++ b :: l2).takeWhile p = l1 := by
  induction l1 with
  | nil => simp [List.takeWhile, h2]
  | cons a t ih =>
    have ha : p a = true := h1 a (List.mem_cons_self a t)
    simp only [List.cons_append, List.takeWhile_cons, ha, if_true]
    have := ih (fun x hx => h1 x (List.mem_cons_of_mem a hx))
    simp [this]

theorem natDigitsAux_eq (fuel : Nat) :
    ∀ n, n ≤ fuel → natDigitsAux fuel n = Nat.digits 10 n := by
  induction fuel with
  | zero =>
    intro n hn
    have : n = 0 := Nat.le_zero.mp hn
    subst this
    rw [Nat.digits_zero]
    rfl
  | succ f ih =>
    intro n hn
    match n with
    | 0 => rw [Nat.digits_zero]; rfl
    | m + 1 =>
      have hdiv : (m + 1) / 10 ≤ f := by
        have : (m + 1) / 10 < m + 1 := Nat.div_lt_self (Nat.succ_pos m)
          (by norm_num)
        omega
      rw [show natDigitsAux (f + 1) (m + 1)
            = ((m + 1) % 10) :: natDigitsAux f ((m + 1) / 10) from rfl,
        ih ((m + 1) / 10) hdiv,
        Nat.digits_def' (by norm_num : (1 : Nat) < 10) (Nat.succ_pos m)]

theorem natDigits_eq (n : Nat) : natDigits n = Nat.digits 10 n :=
  natDigitsAux_eq n n (Nat.le_refl n)

theorem digitVal_natToDigitChar {d : Nat} (h : d < 10) :
    digitVal (natToDigitChar d) = d := by
  interval_cases d <;> decide

theorem isDigitCh_natToDigitChar {d : Nat} (h : d < 10) :
    isDigitCh (natToDigitChar d) = true := by
  interval_cases d <;> decide

theorem digits_of_natToDigitString (n : Nat) :
    ∀ c ∈ (natToDigitString n).data, isDigitCh c = true := by
  intro c hc
  unfold natToDigitString at hc
  rw [natDigits_eq] at hc
  by_cases h0 : n = 0
  · simp only [h0, if_true] at hc
    simp only [show ("0" : String).data = ['0'] from rfl, List.mem_singleton] at hc
    subst hc; decide
  · simp only [h0, if_false] at hc
    simp only [List.mem_reverse, List.mem_map] at hc
    obtain ⟨d, hd, rfl⟩ := hc
    exact isDigitCh_natToDigitChar (Nat.digits_lt_base (by norm_num) hd)

theorem parseDigits_natToDigitString (n : Nat) :
    parseDigits (natToDigitString n).data = n := by
  unfold natToDigitString parseDigits
  rw [natDigits_eq]
  by_cases h0 : n = 0
  · subst h0; decide
  · simp only [h0, if_false]
    have hmap : ((Nat.digits 10 n).map natToDigitChar).map digitVal
        = Nat.digits 10 n := by
      rw [List.map_map]
      have : Nat.digits 10 n = (Nat.digits 10 n).map id := by simp
      nth_rewrite 2 [this]
      apply List.map_congr_left
      intro d hd
      exact digitVal_natToDigitChar (Nat.digits_lt_base (by norm_num) hd)
    calc Nat.ofDigits 10
          (((((Nat.digits 10 n).map natToDigitChar).reverse : List Char).map
            digitVal).reverse)
        = Nat.ofDigits 10
            ((((Nat.digits 10 n).map natToDigitChar).map
              digitVal).reverse.reverse) := by
          rw [List.map_reverse]
      _ = n := by rw [List.reverse_reverse, hmap, Nat.ofDigits_digits]

theorem natToDigitString_ne_nil (n : Nat) : (natToDigitString n).data ≠ [] := by
  unfold natToDigitString
  rw [natDigits_eq]
  by_cases h0 : n = 0
  · simp [h0]
  · simp only [h0, if_false]
    simp only [ne_eq, List.reverse_eq_nil_iff, List.map_eq_nil_iff]
    exact Nat.digits_ne_nil_iff_ne_zero.mpr h0

/-- Reading back the `"id"` field of a dumped cookie yields the written id. -/
theorem loads_dumps_cookie (uid : Nat) (name : String) :
    loads_cookie_id (dumps_cookie uid name) = some uid := by
  unfold loads_cookie_id dumps_cookie
  simp only
  have htw : ((natToDigitString uid).data ++
      ',' :: '"' :: 'n' :: 'a' :: 'm' :: 'e' :: '"' :: ':' :: '"' ::
        (name.data ++ ['"', '\x7d'])).takeWhile isDigitCh
      = (natToDigitString uid).data :=
    takeWhile_append_stop isDigitCh _ ',' _ (digits_of_natToDigitString uid)
      (by decide)
  rw [htw]
  simp only [natToDigitString_ne_nil uid, if_false]
  rw [parseDigits_natToDigitString]

/-- Cookie-present / force branch: with the bot ready and the branch taken,
a non-crashing cookie resolution runs the handler directly with the resolved
user, issues no provider call and leaves the response as the handler made it. -/
theorem new_route_cookie_branch (self : DiscordOAuth) (env : ProviderEnv)
    (cfg : RouteConfig) (func : Option User → HttpResponse) (request : Req)
    (b : TypedBot) (hb : self.bot = some b)
    (hbranch : (sessionTruthy (request.cookies.lookup "session")
      || cfg.force) = true)
    (u : Option User) (hok : self.cookie_branch_user request = .ok u) :
    self.new_route env cfg func request = ⟨.ok (func u), some u, false, []⟩ := by
  unfold DiscordOAuth.new_route
  rw [hb]
  simp only [hbranch, if_true, hok]

/-- Callback branch: with the bot ready, no truthy session cookie, no force
and non-empty query args, the run reduces to the state dispatch on the
configured state functions followed by the exchange phase. -/
theorem new_route_callback_dispatch (self : DiscordOAuth) (env : ProviderEnv)
    (cfg : RouteConfig) (func : Option User → HttpResponse) (request : Req)
    (b : TypedBot) (hb : self.bot = some b)
    (hcook : request.cookies.lookup "session" = none)
    (hforce : cfg.force = false) (hargs : request.args ≠ []) :
    self.new_route env cfg func request =
      match cfg.state_generator with
      | some _ =>
        match cfg.state_checker with
        | none => ⟨.crash .typeError, none, false, []⟩
        | some chk =>
          if chk request (argsGet request.args "state" "") then
            self.exchange_phase env func true
          else ⟨.httpError 403 none, none, true, []⟩
      | none => self.exchange_phase env func false := by
  unfold DiscordOAuth.new_route
  rw [hb]
  simp only [hcook, hforce, sessionTruthy, Bool.or_false, Bool.false_eq_true,
    if_false, ne_eq, hargs, not_false_eq_true, if_true]

/-- Initiate-login branch: with the bot ready, no truthy session cookie, no
force and empty query args, the run redirects to the `get_url` result with
the optionally generated state. -/
theorem new_route_redirect_branch (self : DiscordOAuth) (env : ProviderEnv)
    (cfg : RouteConfig) (func : Option User → HttpResponse) (request : Req)
    (b : TypedBot) (hb : self.bot = some b)
    (hcook : request.cookies.lookup "session" = none)
    (hforce : cfg.force = false) (hargs : request.args = []) :
    self.new_route env cfg func request =
      ⟨.redirect (self.get_url env (self.make_url request request.path)
          cfg.scope (cfg.state_generator.map (fun g => g request))).1,
        none, false,
        (self.get_url env (self.make_url request request.path)
          cfg.scope (cfg.state_generator.map (fun g => g request))).2.2⟩ := by
  unfold DiscordOAuth.new_route
  rw [hb]
  simp only [hcook, hforce, sessionTruthy, Bool.or_false, Bool.false_eq_true,
    if_false, hargs, ne_eq, not_true_eq_false]

/-- The `checked` flag survives the exchange phase unchanged. -/
theorem exchange_phase_checked (self : DiscordOAuth) (env : ProviderEnv)
    (func : Option User → HttpResponse) (c : Bool) :
    (self.exchange_phase env func c).checked = c := by
  unfold DiscordOAuth.exchange_phase
  cases env.token_response with
  | error e => rfl
  | ok t => cases env.user_response with
    | error e => rfl
    | ok u => rfl

/-! Claim theorems. -/

/-- C8: for every incoming request, if the bot client has not finished
initializing (`bot is None`), the middleware fails immediately with a
503-class error; the wrapped handler is never invoked, no state check runs
and no provider call is issued. -/
theorem C8_service_unavailable (self : DiscordOAuth) (env : ProviderEnv)
    (cfg : RouteConfig) (func : Option User → HttpResponse) (request : Req)
    (h : self.bot = none) :
    self.new_route env cfg func request
      = ⟨.httpError 503 none, none, false, []⟩ := by
  unfold DiscordOAuth.new_route
  rw [h]

theorem C8_witness :
    oauthDown.new_route envOk cfgDefault handler0 reqPlain
      = ⟨.httpError 503 none, none, false, []⟩ :=
  C8_service_unavailable oauthDown envOk cfgDefault handler0 reqPlain rfl

/-- C7: every request handled in the cookie-present or force branch issues
zero provider calls, the wrapped handler is invoked directly with the
decrypted user (or `None`), and the response is exactly what the handler
returned — no session cookie is written because the mode stays normal. -/
theorem C7_cookie_force_frame (self : DiscordOAuth) (env : ProviderEnv)
    (cfg : RouteConfig) (func : Option User → HttpResponse) (request : Req)
    (b : TypedBot) (hb : self.bot = some b)
    (hbranch : (sessionTruthy (request.cookies.lookup "session")
      || cfg.force) = true)
    (u : Option User) (hok : self.cookie_branch_user request = .ok u) :
    self.new_route env cfg func request = ⟨.ok (func u), some u, false, []⟩ :=
  new_route_cookie_branch self env cfg func request b hb hbranch u hok

theorem C7_witness :
    oauthReady.new_route envOk cfgDefault handler0 reqCookie
      = ⟨.ok (handler0 (some (botA.fetch_user 5))),
          some (some (botA.fetch_user 5)), false, []⟩ :=
  C7_cookie_force_frame oauthReady envOk cfgDefault handler0 reqCookie
    botA rfl (by decide) (some (botA.fetch_user 5)) (by rfl)

/-- C6: every request presenting a session cookie whose value fails to
decrypt still reaches the wrapped handler with `user = None`; the decryption
failure is swallowed and the request behaves as an unauthenticated visit. -/
theorem C6_corrupted_cookie (self : DiscordOAuth) (env : ProviderEnv)
    (cfg : RouteConfig) (func : Option User → HttpResponse) (request : Req)
    (b : TypedBot) (hb : self.bot = some b) (s : String)
    (hcook : request.cookies.lookup "session" = some s) (hne : s ≠ "")
    (hdec : reprypt.decrypt s self.secret_key Conv.dflt = none) :
    self.new_route env cfg func request
      = ⟨.ok (func none), some none, false, []⟩ := by
  have htr : sessionTruthy (request.cookies.lookup "session") = true := by
    rw [hcook]; simp [sessionTruthy, hne]
  have hok : self.cookie_branch_user request = .ok none := by
    unfold DiscordOAuth.cookie_branch_user DiscordOAuth.get_user_cookie
    rw [hcook]
    simp only [htr.trans rfl, hcook]
    simp [sessionTruthy, hne, hdec]
  exact new_route_cookie_branch self env cfg func request b hb
    (by rw [htr]; rfl) none hok

theorem C6_witness :
    oauthReady.new_route envOk cfgDefault handler0 reqCorrupt
      = ⟨.ok (handler0 none), some none, false, []⟩ :=
  C6_corrupted_cookie oauthReady envOk cfgDefault handler0 reqCorrupt
    botA rfl "garbage" rfl (by decide) (by decide)

/-- C5: the default state functions bind a login attempt to `host ++ ip`:
checking a freshly generated state of the same request succeeds; checking a
state generated for a request with a different `host ++ ip` fails; and a
state that fails to decrypt yields `false` rather than an exception. -/
theorem C5_state_binding (self : DiscordOAuth) (req1 req2 req3 : Req)
    (s : String)
    (hne : req1.host ++ req1.ip ≠ req2.host ++ req2.ip)
    (hbad : reprypt.decrypt s self.secret_key Conv.hex = none) :
    self.state_checker req1 (self.state_generator req1) = true
    ∧ self.state_checker req2 (self.state_generator req1) = false
    ∧ self.state_checker req3 s = false := by
  refine ⟨?_, ?_, ?_⟩
  · unfold DiscordOAuth.state_checker DiscordOAuth.state_generator
    rw [reprypt.decrypt_encrypt]
    simp
  · unfold DiscordOAuth.state_checker DiscordOAuth.state_generator
    rw [reprypt.decrypt_encrypt]
    simp only [beq_eq_false_iff_ne, ne_eq]
    exact fun h => hne h.symm
  · unfold DiscordOAuth.state_checker
    rw [hbad]

theorem C5_witness :
    oauthReady.state_checker reqPlain (oauthReady.state_generator reqPlain)
        = true
    ∧ oauthReady.state_checker reqOther (oauthReady.state_generator reqPlain)
        = false
    ∧ oauthReady.state_checker reqPlain "zz" = false :=
  C5_state_binding oauthReady reqPlain reqOther reqPlain "zz"
    (by decide) (by decide)

/-- C10: the cookie the middleware writes (the encryption of the dumped
`id`/`name` mapping under `secret_key` with the default converter) is read
back by `get_user_cookie` with the same key and converter, and its `"id"`
field resolves to the same user id through the bot lookup. -/
theorem C10_cookie_write_read_agree (self : DiscordOAuth) (b : TypedBot)
    (hb : self.bot = some b) (uid : Nat) (name : String) :
    self.get_user_cookie (self.encrypt uid name)
      = .ok (some (b.fetch_user uid)) := by
  unfold DiscordOAuth.get_user_cookie DiscordOAuth.encrypt
  rw [reprypt.decrypt_encrypt]
  simp only [loads_dumps_cookie, hb]

theorem C10_witness :
    oauthReady.get_user_cookie (oauthReady.encrypt 7 "bob")
      = .ok (some (botA.fetch_user 7)) :=
  C10_cookie_write_read_agree oauthReady botA rfl 7 "bob"

/-- C2 (failing part of the claim, evaluated on the code): `require_login`
binds a caller-supplied state generator or checker to `None` — only the
`"default"` sentinel selects the built-ins, and `None` disables — so a custom
function is never the one the wrapped route uses. -/
theorem C2_require_login_drops_custom (self : DiscordOAuth) (force : Bool)
    (scope : List String) (f : Req → String) (g : Req → String → Bool) :
    ((self.require_login force scope (.custom f) (.custom g)).state_generator
        = none
      ∧ (self.require_login force scope (.custom f) (.custom g)).state_checker
        = none)
    ∧ ((self.require_login force scope .dflt .dflt).state_generator
        = some self.state_generator
      ∧ (self.require_login force scope .dflt .dflt).state_checker
        = some self.state_checker)
    ∧ ((self.require_login force scope .disabled .disabled).state_generator
        = none
      ∧ (self.require_login force scope .disabled .disabled).state_checker
        = none) :=
  ⟨⟨rfl, rfl⟩, ⟨rfl, rfl⟩, ⟨rfl, rfl⟩⟩

/-- C1 (evaluated at the failing input): on a fresh instance two successive
`get_url` calls for the same callback URL and scopes each perform a provider
authorize round-trip — `get_url` leaves `redirects` unchanged, so no cache
entry is ever created and the claimed "at most one round-trip" bound fails. -/
theorem C1_get_url_never_caches :
    c1_first.2.2 = [PCall.authorize]
    ∧ c1_second.2.2 = [PCall.authorize]
    ∧ c1_first.2.1 = oauthDown
    ∧ ¬((c1_first.2.2 ++ c1_second.2.2).count PCall.authorize ≤ 1)
    ∧ ((oauthDown.reset_oauth "https://app/cb").get_url envOk "https://app/cb"
        ["identify"] none).2.2 = [PCall.authorize] :=
  ⟨rfl, rfl, rfl, by decide, rfl⟩

/-- C4: on a callback request whose state passes the configured checker, the
middleware exchanges the code, fetches the user, runs the handler with that
user and prepends the encrypted `id`/`name` session cookie to the handler's
response; an HTTP error from the exchange or the fetch instead yields a
400-class error carrying the provider error, with the handler never invoked
and no cookie written. -/
theorem C4_callback_success_and_failure (self : DiscordOAuth)
    (env : ProviderEnv) (cfg : RouteConfig)
    (func : Option User → HttpResponse) (request : Req) (b : TypedBot)
    (hb : self.bot = some b)
    (hcook : request.cookies.lookup "session" = none)
    (hforce : cfg.force = false)
    (code : String) (hcode : request.args.lookup "code" = some code)
    (g : Req → String) (hsg : cfg.state_generator = some g)
    (chk : Req → String → Bool) (hsc : cfg.state_checker = some chk)
    (hchk : chk request (argsGet request.args "state" "") = true) :
    (∀ tok user, env.token_response = .ok tok →
      env.user_response = .ok user →
      self.new_route env cfg func request
        = ⟨.ok { cookies := ("session", self.encrypt user.id user.name)
              :: (func (some user)).cookies },
            some (some user), true, [PCall.token, PCall.userinfo]⟩)
    ∧ (∀ e, env.token_response = .error e →
      self.new_route env cfg func request
        = ⟨.httpError 400 (some e), none, true, [PCall.token]⟩)
    ∧ (∀ tok e, env.token_response = .ok tok →
      env.user_response = .error e →
      self.new_route env cfg func request
        = ⟨.httpError 400 (some e), none, true,
            [PCall.token, PCall.userinfo]⟩) := by
  have hargs : request.args ≠ [] := by
    intro h
    rw [h] at hcode
    simp [List.lookup] at hcode
  have hd := new_route_callback_dispatch self env cfg func request b hb
    hcook hforce hargs
  rw [hsg, hsc] at hd
  simp only [hchk, if_true] at hd
  refine ⟨?_, ?_, ?_⟩
  · intro tok user htok huser
    rw [hd]
    unfold DiscordOAuth.exchange_phase
    rw [htok, huser]
  · intro e htok
    rw [hd]
    unfold DiscordOAuth.exchange_phase
    rw [htok]
  · intro tok e htok huser
    rw [hd]
    unfold DiscordOAuth.exchange_phase
    rw [htok, huser]

theorem C4_witness :
    oauthReady.new_route envOk cfgDefault handler0 reqCBGood
      = ⟨.ok { cookies := ("session", oauthReady.encrypt 5 "alice")
            :: (handler0 (some ⟨5, "alice"⟩)).cookies },
          some (some ⟨5, "alice"⟩), true, [PCall.token, PCall.userinfo]⟩
    ∧ oauthReady.new_route envTokenFail cfgDefault handler0 reqCBGood
      = ⟨.httpError 400 (some 401), none, true, [PCall.token]⟩ :=
  ⟨(C4_callback_success_and_failure oauthReady envOk cfgDefault handler0
      reqCBGood botA rfl rfl rfl "ABC" rfl oauthReady.state_generator rfl
      oauthReady.state_checker rfl (by decide)).1 ⟨"tok"⟩ ⟨5, "alice"⟩ rfl rfl,
   (C4_callback_success_and_failure oauthReady envTokenFail cfgDefault
      handler0 reqCBGood botA rfl rfl rfl "ABC" rfl oauthReady.state_generator
      rfl oauthReady.state_checker rfl (by decide)).2.1 401 rfl⟩

/-- C3 refuted as stated: with `require_login(state_generator=None)` a state
checker is configured (`state_checker="default"`), the configured checker
rejects the request's state, yet the middleware performs no validation,
proceeds to both provider calls, and does not answer 403 — validation is
gated on the state generator, not the checker. -/
theorem C3_counterexample :
    cfgNoGen.state_checker.isSome = true
    ∧ oauthReady.state_checker reqCBBad (argsGet reqCBBad.args "state" "")
        = false
    ∧ (oauthReady.new_route envOk cfgNoGen handler0 reqCBBad).checked = false
    ∧ (oauthReady.new_route envOk cfgNoGen handler0 reqCBBad).calls
        = [PCall.token, PCall.userinfo]
    ∧ (oauthReady.new_route envOk cfgNoGen handler0 reqCBBad).outcome
        ≠ Outcome.httpError 403 none :=
  ⟨rfl, by decide, rfl, rfl, by decide⟩

/-- C3 amended: in the callback phase the state parameter is validated if and
only if a state *generator* is configured; the validation applies the
configured checker (a missing checker with a configured generator crashes the
request), and a rejected or missing state yields a 403-class error with the
wrapped handler never invoked and no provider call made. -/
theorem C3_amended_state_gate (self : DiscordOAuth) (env : ProviderEnv)
    (cfg : RouteConfig) (func : Option User → HttpResponse) (request : Req)
    (b : TypedBot) (hb : self.bot = some b)
    (hcook : request.cookies.lookup "session" = none)
    (hforce : cfg.force = false) (hargs : request.args ≠ []) :
    (cfg.state_generator = none →
      (self.new_route env cfg func request).checked = false)
    ∧ (∀ g chk, cfg.state_generator = some g → cfg.state_checker = some chk →
      (self.new_route env cfg func request).checked = true)
    ∧ (∀ g, cfg.state_generator = some g → cfg.state_checker = none →
      self.new_route env cfg func request
        = ⟨.crash .typeError, none, false, []⟩)
    ∧ (∀ g chk, cfg.state_generator = some g → cfg.state_checker = some chk →
      chk request (argsGet request.args "state" "") = false →
      self.new_route env cfg func request
        = ⟨.httpError 403 none, none, true, []⟩) := by
  have hd := new_route_callback_dispatch self env cfg func request b hb
    hcook hforce hargs
  refine ⟨?_, ?_, ?_, ?_⟩
  · intro hsg
    rw [hsg] at hd
    rw [hd]
    exact exchange_phase_checked self env func false
  · intro g chk hsg hsc
    rw [hsg, hsc] at hd
    rw [hd]
    by_cases hc : chk request (argsGet request.args "state" "") = true
    · simp only [hc, if_true]
      exact exchange_phase_checked self env func true
    · simp [hc]
  · intro g hsg hsc
    rw [hsg, hsc] at hd
    rw [hd]
  · intro g chk hsg hsc hrej
    rw [hsg, hsc] at hd
    rw [hd]
    simp [hrej]

theorem C3_amended_witness :
    (oauthReady.new_route envOk cfgDisabled handler0 reqCBBad).checked = false
    ∧ oauthReady.new_route envOk cfgDefault handler0 reqCBBad
        = ⟨.httpError 403 none, none, true, []⟩ :=
  ⟨(C3_amended_state_gate oauthReady envOk cfgDisabled handler0 reqCBBad
      botA rfl rfl rfl (by decide)).1 rfl,
   (C3_amended_state_gate oauthReady envOk cfgDefault handler0 reqCBBad
      botA rfl rfl rfl (by decide)).2.2.2 oauthReady.state_generator
      oauthReady.state_checker rfl rfl (by decide)⟩

theorem length_takeWhile_le' {α : Type u} (p : α → Bool) (l : List α) :
    (l.takeWhile p).length ≤ l.length := by
  induction l with
  | nil => exact Nat.le_refl 0
  | cons a t ih =>
    by_cases hp : p a
    · simp only [List.takeWhile_cons, hp, if_true, List.length_cons]
      exact Nat.succ_le_succ ih
    · simp only [List.takeWhile_cons, hp, if_false, List.length_cons,
        List.length_nil]
      exact Nat.zero_le _

theorem pyFindQ_of_mem (l : List Char) (h : '?' ∈ l) :
    pyFindQ l = ((l.takeWhile (fun c => c ≠ '?')).length : Int) := by
  induction l with
  | nil => cases h
  | cons a t ih =>
    by_cases ha : a = '?'
    · subst ha
      show pyFindAux '?' ('?' :: t) = _
      rw [pyFindAux]
      simp [List.takeWhile_cons]
    · have ht : '?' ∈ t := by
        rcases List.mem_cons.mp h with h1 | h2
        · exact absurd h1.symm ha
        · exact h2
      have ihv := ih ht
      show pyFindAux '?' (a :: t) = _
      rw [pyFindAux]
      rw [if_neg ha]
      have hnn : ¬(pyFindAux '?' t < 0) := by
        rw [show pyFindAux '?' t = pyFindQ t from rfl, ihv]
        exact Int.not_lt.mpr (Int.natCast_nonneg _)
      rw [if_neg hnn]
      rw [show pyFindAux '?' t = pyFindQ t from rfl, ihv]
      simp [List.takeWhile_cons, ha]

theorem take_length_takeWhile {α : Type u} (p : α → Bool) (l : List α) :
    l.take (l.takeWhile p).length = l.takeWhile p := by
  induction l with
  | nil => rfl
  | cons a t ih =>
    by_cases hp : p a
    · simp [List.takeWhile_cons, hp, ih]
    · simp [List.takeWhile_cons, hp]

theorem drop_length_takeWhile {α : Type u} (p : α → Bool) (l : List α) :
    l.drop (l.takeWhile p).length = l.dropWhile p := by
  induction l with
  | nil => rfl
  | cons a t ih =>
    by_cases hp : p a
    · simp [List.takeWhile_cons, List.dropWhile_cons, hp, ih]
    · simp [List.takeWhile_cons, List.dropWhile_cons, hp]

/-- Whenever the `Location` carries a query string, the Python slicing in
`get_url` agrees with the spec's description of the transformation. -/
theorem encodeLocation_eq_spec (url : String) (h : '?' ∈ url.data) :
    encodeLocation url = specEncodeLocation url := by
  have hle : (url.data.takeWhile (fun c => c ≠ '?')).length
      ≤ url.data.length := length_takeWhile_le' _ _
  have hclamp : pyClamp url.data.length (pyFindQ url.data)
      = (url.data.takeWhile (fun c => c ≠ '?')).length := by
    rw [pyFindQ_of_mem url.data h]
    unfold pyClamp
    rw [if_neg (Int.not_lt.mpr (Int.natCast_nonneg _))]
    omega
  show (⟨url.data.take (pyClamp url.data.length (pyFindQ url.data))
      ++ replaceSlash (url.data.drop
        (pyClamp url.data.length (pyFindQ url.data)))⟩ : String)
    = specEncodeLocation url
  rw [hclamp, take_length_takeWhile, drop_length_takeWhile]
  rfl

/-- C9 refuted as stated: when the provider's `Location` carries no `?`, the
claim's transformation leaves the URL unchanged, but `url.find("?")` is `-1`
and the Python slices `url[:-1] + url[-1:]` make `get_url` rewrite the final
character — here a trailing `/` becomes `%2F`. -/
theorem C9_counterexample :
    specEncodeLocation "https://a/b/" ++ stateSuffix none = "https://a/b/"
    ∧ (oauthDown.get_url envNoQuery "https://app/cb" ["identify"] none).1
        = "https://a/b%2F"
    ∧ (oauthDown.get_url envNoQuery "https://app/cb" ["identify"] none).1
        ≠ specEncodeLocation "https://a/b/" ++ stateSuffix none := by
  refine ⟨by decide, rfl, by decide⟩

/-- C9 amended: when the authorize `Location` contains a `?` (and the cache
has no entry for the callback URL), `get_url` returns the portion up to the
first `?` verbatim with every `/` from the first `?` onward replaced by
`%2F`, issues one authorize round-trip, and appends `&state=<value>` exactly
for a supplied non-empty state; a `Location` without `?` instead has its
final character subjected to the `/` replacement. -/
theorem C9_amended_authorize_url (self : DiscordOAuth) (env : ProviderEnv)
    (redirect_url : String) (scope : List String) (state : Option String)
    (hmiss : redirectsGet self.redirects redirect_url = none)
    (hq : '?' ∈ env.authorize_location.data) :
    (self.get_url env redirect_url scope state).1
      = specEncodeLocation env.authorize_location ++ stateSuffix state
    ∧ (self.get_url env redirect_url scope state).2.2 = [PCall.authorize]
    ∧ (∀ s, state = some s → s ≠ "" → stateSuffix state = "&state=" ++ s)
    ∧ (state = none → stateSuffix state = "")
    ∧ stateSuffix (some "") = "" := by
  unfold DiscordOAuth.get_url
  rw [hmiss]
  refine ⟨?_, rfl, ?_, ?_, rfl⟩
  · show encodeLocation env.authorize_location ++ stateSuffix state = _
    rw [encodeLocation_eq_spec _ hq]
  · intro s hs hne
    subst hs
    simp [stateSuffix, hne]
  · intro hs
    subst hs
    rfl

theorem C9_amended_witness :
    (oauthDown.get_url envOk "https://app/cb" ["identify"]
        (some "st")).1
      = specEncodeLocation envOk.authorize_location ++ stateSuffix (some "st")
    ∧ stateSuffix (some "st") = "&state=" ++ "st" :=
  ⟨(C9_amended_authorize_url oauthDown envOk "https://app/cb" ["identify"]
      (some "st") rfl (by decide)).1,
   (C9_amended_authorize_url oauthDown envOk "https://app/cb" ["identify"]
      (some "st") rfl (by decide)).2.2.1 "st" rfl (by decide)⟩
